import Mathlib

/-!
Verification of the wechat-love narrative core.

This file gives a shallow embedding, in Lean 4, of the core modules of the
wechat-love visual-novel runtime and proves properties of that embedding:

* `CharacterSystem` (assets/scripts/core/CharacterSystem.ts): the affinity
  ledger — per-character favor with clamping, level derivation, unlock and
  save-data export/import.
* `FlagManager` (assets/scripts/core/AudioManager.ts, FlagManager section):
  the boolean flag store with declared defaults and sparse export/import.
* `GameStateMachine` (assets/scripts/core/GameStateMachine.ts): the mode
  state machine with a static transition table and a history stack.
* `SaveLoadSystem` (assets/scripts/core/SaveLoadSystem.ts): snapshot
  collection and application, with the busy guard on `save`.
* `StoryManager` (StoryManager.ts): chapter/node traversal.

Modelling conventions: JavaScript `Map`s and plain objects used as maps are
modelled as association lists `List (String × α)` preserving insertion
order (`Map.set` keeps the position of an existing key and appends new
keys, which `aset` mirrors; key-order matters to `Object.keys`).  Event
emission (`EventEmitter.emit`) is modelled by returning the ordered list of
emitted events.  JavaScript numbers holding integral game quantities
(favor, deltas, timestamps) are modelled as `Int`.  The floating-point
ratio comparison in `getFavorLevel` (`favor / maxFavor >= 0.85` etc.) is
modelled by exact integer cross-multiplication (`100 * favor ≥ 85 *
maxFavor`), which agrees with the source for the positive `maxFavor`
values the game uses.  Asynchronous functions in the source perform no
intermediate awaits on the paths modelled here and are modelled as pure
state transformers; `Date.now()` is passed in as an explicit `now`
argument.
-/

namespace WechatLove

/-! ## Association-list primitives (JS Map / object-as-map semantics) -/

/-- Lookup of a key in an association list: value of the first entry whose
key matches, mirroring `Map.get` (keys are unique in a real `Map`). -/
def alookup {α : Type} : List (String × α) → String → Option α
  | [], _ => none
  | (k, v) :: rest, key => if k = key then some v else alookup rest key

/-- `Map.set` semantics: replace the value of an existing key in place
(keeping its position in insertion order), or append a new key at the
end. -/
def aset {α : Type} : List (String × α) → String → α → List (String × α)
  | [], key, v => [(key, v)]
  | (k, v) :: rest, key, newV =>
      if k = key then (k, newV) :: rest else (k, v) :: aset rest key newV

/-- In-place update of an existing entry (used where the source mutates a
looked-up object: absent keys are left untouched). -/
def aupdate {α : Type} : List (String × α) → String → α → List (String × α)
  | [], _, _ => []
  | (k, v) :: rest, key, newV =>
      if k = key then (k, newV) :: rest else (k, v) :: aupdate rest key newV

/-! ## CharacterSystem (CharacterSystem.ts) -/

/-- `CharacterData` of CharacterSystem.ts: per-character record held in the
`_characters` map. -/
structure CharacterData where
  id : String
  name : String
  title : String
  sprites : List (String × String)
  favor : Int
  maxFavor : Int
  unlocked : Bool
  endings : List String
  events : List String
deriving Repr, DecidableEq

/-- Notifications emitted by `CharacterSystem` (`this.emit(...)` calls);
payload fields restricted to the data-bearing parts. -/
inductive CharacterEvent
  | characterUnlocked (characterId : String)
  | favorChanged (characterId : String) (delta : Int) (newValue : Int)
  | favorLevelUp (characterId : String) (newLevel : Nat)
deriving Repr, DecidableEq

/-- The `_characters` map of `CharacterSystem`. -/
abbrev CharacterMap := List (String × CharacterData)

/-- `CharacterSystem.getFavorLevel`: 0 for an unknown character id,
otherwise the seven-threshold step function of `favor / maxFavor`
(float ratio modelled by exact cross-multiplication). -/
def CharacterSystem.getFavorLevel (chars : CharacterMap) (characterId : String) : Nat :=
  match alookup chars characterId with
  | none => 0
  | some c =>
      if 100 * c.favor ≥ 85 * c.maxFavor then 7
      else if 100 * c.favor ≥ 70 * c.maxFavor then 6
      else if 100 * c.favor ≥ 55 * c.maxFavor then 5
      else if 100 * c.favor ≥ 40 * c.maxFavor then 4
      else if 100 * c.favor ≥ 25 * c.maxFavor then 3
      else if 100 * c.favor ≥ 10 * c.maxFavor then 2
      else 1

/-- `CharacterSystem.checkFavorLevel`, translated faithfully: the source
computes `newLevel` and `oldLevel` with the *same* call on the
post-mutation state (its own `TODO` comment notes that the old level is
not stored), so the guard `newLevel !== oldLevel` compares a value with
itself. -/
def CharacterSystem.checkFavorLevel (chars : CharacterMap) (characterId : String) :
    List CharacterEvent :=
  let newLevel := CharacterSystem.getFavorLevel chars characterId
  let oldLevel := CharacterSystem.getFavorLevel chars characterId
  if newLevel ≠ oldLevel then [.favorLevelUp characterId newLevel] else []

/-- Result of `CharacterSystem.changeFavor`: updated map, emitted events in
order, and the returned `actualChange`. -/
structure ChangeFavorResult where
  chars : CharacterMap
  events : List CharacterEvent
  actualDelta : Int
deriving Repr, DecidableEq

/-- `CharacterSystem.changeFavor`: clamp `favor + delta` into
`[0, maxFavor]`, emit `favorChanged` with the actual applied delta when it
is nonzero, then run `checkFavorLevel` on the mutated state.  Unknown ids
return 0 with no mutation and no events. -/
def CharacterSystem.changeFavor (chars : CharacterMap) (characterId : String)
    (delta : Int) : ChangeFavorResult :=
  match alookup chars characterId with
  | none => ⟨chars, [], 0⟩
  | some c =>
      let oldFavor := c.favor
      let newFavor := max 0 (min c.maxFavor (c.favor + delta))
      let chars' := aupdate chars characterId { c with favor := newFavor }
      let actualChange := newFavor - oldFavor
      if actualChange ≠ 0 then
        ⟨chars',
          .favorChanged characterId actualChange newFavor ::
            CharacterSystem.checkFavorLevel chars' characterId,
          actualChange⟩
      else ⟨chars', [], actualChange⟩

/-- Result of `CharacterSystem.unlockCharacter`. -/
structure UnlockResult where
  chars : CharacterMap
  events : List CharacterEvent
  ok : Bool
deriving Repr, DecidableEq

/-- `CharacterSystem.unlockCharacter`: fails on unknown or
already-unlocked characters; otherwise sets `unlocked` and emits
`characterUnlocked` once. -/
def CharacterSystem.unlockCharacter (chars : CharacterMap) (characterId : String) :
    UnlockResult :=
  match alookup chars characterId with
  | none => ⟨chars, [], false⟩
  | some c =>
      if c.unlocked then ⟨chars, [], false⟩
      else
        ⟨aupdate chars characterId { c with unlocked := true },
          [.characterUnlocked characterId], true⟩

/-- Per-character record of `CharacterSystem.exportData` (`favor`,
`unlocked`, `endings`, `events`). -/
structure CharacterSaveEntry where
  favor : Int
  unlocked : Bool
  endings : List String
  events : List String
deriving Repr, DecidableEq

/-- `CharacterSystem.exportData`: snapshot of every character in map
order. -/
def CharacterSystem.exportData (chars : CharacterMap) :
    List (String × CharacterSaveEntry) :=
  chars.map fun kc => (kc.1, ⟨kc.2.favor, kc.2.unlocked, kc.2.endings, kc.2.events⟩)

/-- `CharacterSystem.importData`: for each entry of the save data whose id
is in the roster, overwrite favor/unlocked/endings/events; ids absent from
the roster are ignored. -/
def CharacterSystem.importData (chars : CharacterMap)
    (data : List (String × CharacterSaveEntry)) : CharacterMap :=
  data.foldl
    (fun acc kv =>
      match alookup acc kv.1 with
      | none => acc
      | some c =>
          aupdate acc kv.1
            { c with favor := kv.2.favor, unlocked := kv.2.unlocked,
                     endings := kv.2.endings, events := kv.2.events })
    chars

/-- Folding `changeFavor` over a list of `(characterId, delta)` requests:
an arbitrary finite sequence of affinity mutations. -/
def CharacterSystem.changeFavorSeq (chars : CharacterMap)
    (ds : List (String × Int)) : CharacterMap :=
  ds.foldl (fun cs p => (CharacterSystem.changeFavor cs p.1 p.2).chars) chars

/-- The roster built by `initializeCharacters` from the static
`_characterConfig` of CharacterSystem.ts: three characters, each with
`favor = defaultFavor = 0`, `maxFavor = 1000`, locked, no endings, no
events. -/
def initialCharacters : CharacterMap :=
  [ ("heroine_1",
      { id := "heroine_1", name := "林雨晴", title := "学生会会长",
        sprites :=
          [ ("normal", "char_001_normal"), ("smile", "char_001_smile"),
            ("blush", "char_001_blush"), ("angry", "char_001_angry"),
            ("sad", "char_001_sad"), ("surprise", "char_001_surprise"),
            ("think", "char_001_think"), ("laugh", "char_001_laugh") ],
        favor := 0, maxFavor := 1000, unlocked := false,
        endings := [], events := [] }),
    ("heroine_2",
      { id := "heroine_2", name := "苏小晚", title := "元气学妹",
        sprites :=
          [ ("normal", "char_002_normal"), ("smile", "char_002_smile"),
            ("blush", "char_002_blush"), ("angry", "char_002_angry"),
            ("sad", "char_002_sad"), ("surprise", "char_002_surprise"),
            ("think", "char_002_think"), ("laugh", "char_002_laugh") ],
        favor := 0, maxFavor := 1000, unlocked := false,
        endings := [], events := [] }),
    ("heroine_3",
      { id := "heroine_3", name := "沈墨寒", title := "冰山校花",
        sprites :=
          [ ("normal", "char_003_normal"), ("smile", "char_003_smile"),
            ("blush", "char_003_blush"), ("angry", "char_003_angry"),
            ("sad", "char_003_sad"), ("surprise", "char_003_surprise"),
            ("think", "char_003_think"), ("laugh", "char_003_laugh") ],
        favor := 0, maxFavor := 1000, unlocked := false,
        endings := [], events := [] }) ]

/-- The clamping invariant of §3 of the spec: every character in the map
has `0 ≤ favor ≤ maxFavor`. -/
def FavorInv (chars : CharacterMap) : Prop :=
  ∀ p ∈ chars, 0 ≤ p.2.favor ∧ p.2.favor ≤ p.2.maxFavor

instance (chars : CharacterMap) : Decidable (FavorInv chars) := by
  unfold FavorInv; infer_instance

/-! ## FlagManager (AudioManager.ts, FlagManager section) -/

/-- `FlagDefinition` of the flag store: key, default value, description and
tags (the source marks description/tags optional but every static entry
carries them). -/
structure FlagDefinition where
  key : String
  defaultValue : Bool
  description : String
  tags : List String
deriving Repr, DecidableEq

/-- The static `FLAG_DEFINITIONS` table of AudioManager.ts. -/
def FLAG_DEFINITIONS : List FlagDefinition :=
  [ { key := "met_yuqing", defaultValue := false, description := "是否见过林雨晴",
      tags := ["story", "heroine_1"] },
    { key := "met_xiaowan", defaultValue := false, description := "是否见过苏小晚",
      tags := ["story", "heroine_2"] },
    { key := "met_mohan", defaultValue := false, description := "是否见过沈墨寒",
      tags := ["story", "heroine_3"] },
    { key := "polite", defaultValue := false, description := "是否礼貌回应",
      tags := ["choice"] },
    { key := "cold", defaultValue := false, description := "是否冷淡回应",
      tags := ["choice"] },
    { key := "ask_about_mo", defaultValue := false, description := "是否询问沈墨寒的事",
      tags := ["choice"] },
    { key := "event_date_1", defaultValue := false, description := "是否完成第一次约会",
      tags := ["event"] },
    { key := "event_basketball", defaultValue := false, description := "是否观看篮球比赛",
      tags := ["event"] },
    { key := "event_library", defaultValue := false, description := "是否一起去图书馆",
      tags := ["event"] },
    { key := "event_festival", defaultValue := false, description := "是否参加学园祭",
      tags := ["event"] },
    { key := "unlock_heroine_2", defaultValue := false, description := "是否解锁苏小晚",
      tags := ["unlock"] },
    { key := "unlock_heroine_3", defaultValue := false, description := "是否解锁沈墨寒",
      tags := ["unlock"] },
    { key := "unlock_cg_1", defaultValue := false, description := "是否解锁CG 1",
      tags := ["unlock", "cg"] },
    { key := "unlock_ending_1", defaultValue := false, description := "是否解锁结局1",
      tags := ["unlock", "ending"] },
    { key := "is_auto_save", defaultValue := false, description := "是否为自动存档",
      tags := ["system"] },
    { key := "skip_mode", defaultValue := false, description := "是否跳过模式",
      tags := ["system"] } ]

/-- State of `FlagManager`: the `_definitions` map and the `_flags` map. -/
structure FlagManager where
  definitions : List (String × FlagDefinition)
  flags : List (String × Bool)
deriving Repr, DecidableEq

/-- Notifications emitted by `FlagManager`. -/
inductive FlagEvent
  | flagChanged (key : String) (oldValue newValue : Bool)
  | resetDone
deriving Repr, DecidableEq

/-- The `FlagManager` constructor loop: seed `_definitions` and `_flags`
from a definition table (each flag starts at its default). -/
def FlagManager.ofDefinitions (defs : List FlagDefinition) : FlagManager :=
  defs.foldl
    (fun fm d =>
      { definitions := aset fm.definitions d.key d,
        flags := aset fm.flags d.key d.defaultValue })
    ⟨[], []⟩

/-- `FlagManager.get`: stored value, or `false` for a never-stored key
(`this._flags.get(key) ?? false`). -/
def FlagManager.get (fm : FlagManager) (key : String) : Bool :=
  (alookup fm.flags key).getD false

/-- `FlagManager.set`: no-op (no event) when the value is unchanged,
otherwise store and emit `flagChanged` with old and new value. -/
def FlagManager.set (fm : FlagManager) (key : String) (value : Bool) :
    FlagManager × List FlagEvent :=
  let oldValue := fm.get key
  if oldValue = value then (fm, [])
  else ({ fm with flags := aset fm.flags key value },
        [.flagChanged key oldValue value])

/-- `FlagManager.exportData`: only flags whose value differs from their
declared default are emitted (sparse save representation); entries without
a declaration are skipped. -/
def FlagManager.exportData (fm : FlagManager) : List (String × Bool) :=
  fm.flags.filter fun kv =>
    match alookup fm.definitions kv.1 with
    | some d => kv.2 != d.defaultValue
    | none => false

/-- `FlagManager.reset`: set every declared flag back to its default (keys
without a declaration are left untouched, as in the source loop over
`_definitions`). -/
def FlagManager.reset (fm : FlagManager) : FlagManager :=
  { fm with
    flags := fm.definitions.foldl (fun fl kd => aset fl kd.1 kd.2.defaultValue) fm.flags }

/-- Folding `FlagManager.set` over a list of assignments (events
discarded); used both as the tail of `importData` and to describe
reachable flag stores. -/
def FlagManager.applySets (fm : FlagManager) (data : List (String × Bool)) : FlagManager :=
  data.foldl (fun f kv => (f.set kv.1 kv.2).1) fm

/-- `FlagManager.importData`: reset every declared flag to its default,
then apply the sparse set through `set` (which emits `flagChanged` per
actual change). -/
def FlagManager.importData (fm : FlagManager) (data : List (String × Bool)) :
    FlagManager × List FlagEvent :=
  data.foldl
    (fun acc kv =>
      let s := acc.1.set kv.1 kv.2
      (s.1, acc.2 ++ s.2))
    (fm.reset, ([FlagEvent.resetDone] : List FlagEvent))

/-- The flag store as built at startup from the static table. -/
def initialFlagManager : FlagManager :=
  FlagManager.ofDefinitions FLAG_DEFINITIONS

/-! ## GameStateMachine (GameStateMachine.ts) -/

/-- The `GameState` enumeration (string values in the source given in the
same order). -/
inductive GameState
  | boot | title | mainMenu
  | playing | dialog | choice | event | date
  | pause | inventory | character | map
  | settings | saveLoad | gallery | achievement
  | ending | credits
deriving Repr, DecidableEq

/-- String value of a `GameState` member ('boot', 'title', ...), needed
where the source uses the enum value as a string
(`stateMachine.currentState as any`). -/
def GameState.toKey : GameState → String
  | .boot => "boot"
  | .title => "title"
  | .mainMenu => "main_menu"
  | .playing => "playing"
  | .dialog => "dialog"
  | .choice => "choice"
  | .event => "event"
  | .date => "date"
  | .pause => "pause"
  | .inventory => "inventory"
  | .character => "character"
  | .map => "map"
  | .settings => "settings"
  | .saveLoad => "save_load"
  | .gallery => "gallery"
  | .achievement => "achievement"
  | .ending => "ending"
  | .credits => "credits"

/-- The `MenuState` enumeration. -/
inductive MenuState
  | main | newGame | continueGame | load | settings | gallery | exit
deriving Repr, DecidableEq

/-- The `DialogState` enumeration. -/
inductive DialogState
  | waiting | typing | complete | auto | skip
deriving Repr, DecidableEq

/-- The static `STATE_TRANSITIONS` table: the exhaustive allowed-target set
for each state (the record in the source is total, so the `?? false`
fallback of `canTransition` is never taken). -/
def STATE_TRANSITIONS : GameState → List GameState
  | .boot => [.title]
  | .title => [.mainMenu]
  | .mainMenu => [.playing, .saveLoad, .settings, .gallery]
  | .playing => [.dialog, .choice, .event, .date, .pause, .inventory, .character]
  | .dialog => [.choice, .event, .playing, .ending]
  | .choice => [.dialog, .event, .playing]
  | .event => [.dialog, .playing, .ending]
  | .date => [.playing, .dialog]
  | .pause => [.playing, .saveLoad, .settings]
  | .inventory => [.playing]
  | .character => [.playing]
  | .map => [.playing]
  | .settings => [.mainMenu, .pause]
  | .saveLoad => [.mainMenu, .playing]
  | .gallery => [.mainMenu, .pause]
  | .achievement => [.mainMenu, .pause]
  | .ending => [.credits, .title, .mainMenu]
  | .credits => [.title]

/-- Mutable state of `GameStateMachine`. -/
structure GameStateMachine where
  currentState : GameState
  previousState : GameState
  menuState : MenuState
  dialogState : DialogState
  stateStack : List GameState
deriving Repr, DecidableEq

/-- Notification emitted by `GameStateMachine.changeState`. -/
inductive SMEvent
  | stateChanged (oldState newState : GameState)
deriving Repr, DecidableEq

/-- `GameStateMachine.canTransition`: membership of the target in the
current state's allowed set. -/
def GameStateMachine.canTransition (m : GameStateMachine) (targetState : GameState) :
    Bool :=
  (STATE_TRANSITIONS m.currentState).contains targetState

/-- `shouldPushToStack`: the fixed allow-list of from→to pairs recorded on
the history stack. -/
def GameStateMachine.shouldPushToStack (src dst : GameState) : Bool :=
  [ (GameState.mainMenu, GameState.playing),
    (GameState.playing, GameState.dialog),
    (GameState.playing, GameState.choice),
    (GameState.playing, GameState.pause),
    (GameState.playing, GameState.inventory),
    (GameState.playing, GameState.character),
    (GameState.pause, GameState.saveLoad),
    (GameState.pause, GameState.settings) ].any
    fun ft => ft.1 == src && ft.2 == dst

/-- `GameStateMachine.changeState`: reject (no mutation, no event, return
`false`) when the transition is not allowed; otherwise update
current/previous state, conditionally push the old state, and emit
`stateChanged`. -/
def GameStateMachine.changeState (m : GameStateMachine) (newState : GameState) :
    GameStateMachine × List SMEvent × Bool :=
  if ¬ m.canTransition newState then (m, [], false)
  else
    let oldState := m.currentState
    let m' :=
      { m with
        previousState := oldState
        currentState := newState
        stateStack :=
          if GameStateMachine.shouldPushToStack oldState newState then
            m.stateStack ++ [oldState]
          else m.stateStack }
    (m', [.stateChanged oldState newState], true)

/-- The state machine as constructed (everything at its declared initial
value). -/
def initialStateMachine : GameStateMachine :=
  { currentState := .boot, previousState := .boot,
    menuState := .main, dialogState := .waiting, stateStack := [] }

/-! ## Story content model (DialogSystem.ts types, StoryManager.ts) -/

/-- `NodeType` of DialogSystem.ts (string values 'dialog', 'narration',
'choice', 'branch', 'event', 'end'). -/
inductive NodeType
  | dialog | narration | choice | branch | event | endNode
deriving Repr, DecidableEq

/-- `CharacterDisplay` directive attached to a node. -/
structure CharacterDisplay where
  id : String
  pose : String
  position : String
  fade : Option String
deriving Repr, DecidableEq

/-- A condition record (`{ type, target, value }` in DialogSystem.ts; the
chapter `unlockCondition` of StoryManager.ts omits `target` in its type but
`StoryManager.checkCondition` reads `condition.target`, so `target` is kept
and the any-typed `value`, unused on the paths modelled here, is
dropped). -/
structure StoryCondition where
  type : String
  target : String
deriving Repr, DecidableEq

/-- An effect record (`{ type, target, value }`); the any-typed `value` is
restricted to the boolean used by the `flag` branch of
`StoryManager.applyEffects`, the only branch that does anything. -/
structure Effect where
  type : String
  target : String
  value : Bool
deriving Repr, DecidableEq

/-- `ChoiceData` of DialogSystem.ts. -/
structure ChoiceData where
  id : String
  text : String
  next : String
  conditions : List StoryCondition
  effects : List Effect
  favorChange : List (String × Int)
deriving Repr, DecidableEq

/-- `StoryNode` of DialogSystem.ts (optional lists modelled as plain
lists, an absent list behaving as empty). -/
structure StoryNode where
  id : String
  type : NodeType
  speaker : Option String
  content : String
  background : Option String
  character : Option CharacterDisplay
  choices : List ChoiceData
  next : Option String
  conditions : List StoryCondition
  effects : List Effect
deriving Repr, DecidableEq

/-- `Chapter` of StoryManager.ts; `nodes` is a JS object used as a map
from node id to node, so it is modelled as an association list whose order
is the object's key insertion order (observable through
`Object.keys`). -/
structure Chapter where
  id : String
  title : String
  description : String
  unlockCondition : Option StoryCondition
  bgm : Option String
  nodes : List (String × StoryNode)
deriving Repr, DecidableEq

/-- Mutable state of `StoryManager` (the loaded `_config.chapters`, the
current chapter object and node id, local flags, visited-node set as an
insertion-ordered list, and the choice history). -/
structure StoryState where
  chapters : List Chapter
  currentChapter : Option Chapter
  currentNodeId : String
  localFlags : List (String × Bool)
  visitedNodes : List String
  choiceHistory : List String
deriving Repr, DecidableEq

/-- The mock story config loaded by `loadStoryConfig` (chapter ch00 with
two nodes). -/
def initialStoryConfig : List Chapter :=
  [ { id := "ch00", title := "序章 - 入学第一天",
      description := "故事从主角入学圣樱学院开始...",
      unlockCondition := none, bgm := some "bgm_chapter_0",
      nodes :=
        [ ("ch00_start",
            { id := "ch00_start", type := .narration, speaker := none,
              content := "九月的阳光洒在圣樱学院的校门上，我站在这里，心跳加速...",
              background := some "bg_school_gate", character := none,
              choices := [], next := some "ch00_01",
              conditions := [], effects := [] }),
          ("ch00_01",
            { id := "ch00_01", type := .dialog, speaker := some "player",
              content := "这就是圣樱学院吗...真大啊...",
              background := none, character := none,
              choices := [], next := some "ch00_02",
              conditions := [], effects := [] }) ] } ]

/-- `StoryManager` state as initialized. -/
def initialStory : StoryState :=
  { chapters := initialStoryConfig, currentChapter := none,
    currentNodeId := "", localFlags := [], visitedNodes := [],
    choiceHistory := [] }

/-! ## SaveLoadSystem (SaveLoadSystem.ts) -/

/-- The `player` sub-record of `SaveData`. -/
structure PlayerData where
  playTime : Int
  choices : List String
  name : String
  attributes : List (String × Int)
deriving Repr, DecidableEq

/-- `SaveData` of SaveLoadSystem.ts (the JSON-serializable snapshot; the
TODO `thumbnail` and the settings-only optional fields are omitted; the
any-typed `extra` bag is modelled as a string map). -/
structure SaveData where
  slot : Nat
  version : String
  saveTime : Int
  chapter : String
  node : String
  characters : List (String × CharacterSaveEntry)
  flags : List (String × Bool)
  player : PlayerData
  extra : List (String × String)
deriving Repr, DecidableEq

/-- Caller-supplied overrides (`Partial<SaveData>` with a partial
`player`), restricted to the fields `collectSaveData` reads. -/
structure SaveOverrides where
  chapter : Option String
  node : Option String
  playerPlayTime : Option Int
  playerChoices : Option (List String)
  playerName : Option String
  playerAttributes : Option (List (String × Int))
  extra : Option (List (String × String))
deriving Repr, DecidableEq

/-- The empty overrides record (calling `save` with no `data`
argument). -/
def SaveOverrides.empty : SaveOverrides :=
  ⟨none, none, none, none, none, none, none⟩

/-- JS `a || b` for an optional string field: an absent or empty (falsy)
override falls back. -/
def orElseStr (o : Option String) (fallback : String) : String :=
  match o with
  | some s => if s = "" then fallback else s
  | none => fallback

/-- Mutable state of `SaveLoadSystem`; `storage` models the key→record
host storage (`localStorage` with JSON round-tripping assumed
faithful). -/
structure SaveLoadState where
  currentSlot : Int
  isSaving : Bool
  autoSaveEnabled : Bool
  autoSaveInterval : Int
  lastAutoSaveTime : Int
  autoSaveNode : String
  playStartTime : Int
  storage : List (String × SaveData)
deriving Repr, DecidableEq

/-- `SaveLoadSystem` state as constructed. -/
def initialSaveLoad : SaveLoadState :=
  { currentSlot := -1, isSaving := false, autoSaveEnabled := true,
    autoSaveInterval := 5 * 60 * 1000, lastAutoSaveTime := 0,
    autoSaveNode := "", playStartTime := 0, storage := [] }

/-- `MAX_SLOTS` of SaveLoadSystem.ts. -/
def MAX_SLOTS : Nat := 6

/-- `GAME_VERSION` of SaveLoadSystem.ts. -/
def GAME_VERSION : String := "1.0.0"

/-- The full game world the cross-cutting operations read and write: the
singleton instances wired together by the host. -/
structure GameWorld where
  characters : CharacterMap
  flags : FlagManager
  machine : GameStateMachine
  story : StoryState
  save : SaveLoadState
deriving Repr, DecidableEq

/-- World-level notifications (the unions of the emitting components,
tagged). -/
inductive GameEvent
  | charEvent (e : CharacterEvent)
  | stateChanged (oldState newState : GameState)
  | saveSuccess (slot : Nat)
  | saveFailed (slot : Nat)
  | dataApplied
  | chapterLocked (chapterId : String)
  | chapterStarted (chapterId : String)
  | nodePlayed (nodeId : String)
  | storyEnded
deriving Repr, DecidableEq

/-- The world at startup. -/
def initialWorld : GameWorld :=
  { characters := initialCharacters, flags := initialFlagManager,
    machine := initialStateMachine, story := initialStory,
    save := initialSaveLoad }

/-- `SaveLoadSystem.calculatePlayTime`: elapsed whole seconds since
`_playStartTime` (0 when the clock was never started);
`Math.floor(ms / 1000)` is floor division. -/
def SaveLoadSystem.calculatePlayTime (s : SaveLoadState) (now : Int) : Int :=
  if s.playStartTime ≤ 0 then 0 else Int.fdiv (now - s.playStartTime) 1000

/-- `SaveLoadSystem.collectFlags`, translated faithfully: the source body
is a TODO stub (`// TODO: 从FlagManager获取`) that returns the empty
object, so the snapshot's flag map is always empty whatever the
`FlagManager` holds. -/
def SaveLoadSystem.collectFlags (_w : GameWorld) : List (String × Bool) :=
  []

/-- `SaveLoadSystem.collectSaveData`: build the snapshot from overrides and
current component state.  Falsy-string fallbacks (`||`) for chapter and
node; the chapter fallback is the mode-state string
(`stateMachine.currentState as any`), the node fallback the last auto-save
node. -/
def SaveLoadSystem.collectSaveData (w : GameWorld) (slot : Nat)
    (extraData : SaveOverrides) (now : Int) : SaveData :=
  { slot := slot, version := GAME_VERSION, saveTime := now,
    chapter := orElseStr extraData.chapter w.machine.currentState.toKey,
    node := orElseStr extraData.node w.save.autoSaveNode,
    characters := CharacterSystem.exportData w.characters,
    flags := SaveLoadSystem.collectFlags w,
    player :=
      { playTime :=
          (extraData.playerPlayTime.getD 0) +
            SaveLoadSystem.calculatePlayTime w.save now,
        choices := extraData.playerChoices.getD [],
        name := orElseStr extraData.playerName "李明",
        attributes :=
          extraData.playerAttributes.getD
            [("charm", 50), ("intellect", 50), ("luck", 50), ("athletics", 50)] },
    extra := extraData.extra.getD [] }

/-- `SaveLoadSystem.save`: fail fast while `_isSaving`; fail on an invalid
slot; otherwise collect the snapshot, write it under `save_<slot>`, mark
the slot current and emit `saveSuccess`.  (`_isSaving` is set and cleared
around the write, so it is `false` again in the returned state; the catch
branch emitting `saveFailed` is unreachable in this model because the
storage write cannot throw.) -/
def SaveLoadSystem.save (w : GameWorld) (slot : Int) (extraData : SaveOverrides)
    (now : Int) : GameWorld × List GameEvent × Bool :=
  if w.save.isSaving then (w, [], false)
  else if slot < 0 ∨ (MAX_SLOTS : Int) ≤ slot then (w, [], false)
  else
    let saveData := SaveLoadSystem.collectSaveData w slot.toNat extraData now
    let key := "save_" ++ toString slot.toNat
    let s' := { w.save with storage := aset w.save.storage key saveData,
                            currentSlot := slot }
    ({ w with save := s' }, [.saveSuccess slot.toNat], true)

/-- `SaveLoadSystem.applySaveData`: push the snapshot's character data into
`CharacterSystem`, reset the play-time origin, emit `dataApplied`, and
return `true`.  Faithfully to the source, the snapshot's flag map is NOT
pushed anywhere (`// TODO: FlagManager.importData(data.flags)`) and the
chapter/node cursor is only logged, never applied. -/
def SaveLoadSystem.applySaveData (w : GameWorld) (data : SaveData) (now : Int) :
    GameWorld × List GameEvent × Bool :=
  let chars' := CharacterSystem.importData w.characters data.characters
  let s' := { w.save with playStartTime := now - data.player.playTime * 1000 }
  ({ w with characters := chars', save := s' }, [.dataApplied], true)

/-! ## StoryManager operations (StoryManager.ts) -/

/-- `StoryManager.checkCondition`: 'chapter' conditions test that any node
was visited, 'flag' conditions read the local flag store, other tags
succeed. -/
def StoryManager.checkCondition (st : StoryState) (c : StoryCondition) : Bool :=
  if c.type = "chapter" then st.visitedNodes.length > 0
  else if c.type = "flag" then (alookup st.localFlags c.target).getD false
  else true

/-- `StoryManager.playNode`: fail without a current chapter or for an id
absent from it; otherwise record the node as current and visited and emit
`nodePlayed` (the hand-off to `DialogSystem.playNode` is
presentation). -/
def StoryManager.playNode (w : GameWorld) (nodeId : String) :
    GameWorld × List GameEvent × Bool :=
  match w.story.currentChapter with
  | none => (w, [], false)
  | some ch =>
      match alookup ch.nodes nodeId with
      | none => (w, [], false)
      | some _ =>
          let st := w.story
          let st' :=
            { st with
              currentNodeId := nodeId
              visitedNodes :=
                if nodeId ∈ st.visitedNodes then st.visitedNodes
                else st.visitedNodes ++ [nodeId] }
          ({ w with story := st' }, [.nodePlayed nodeId], true)

/-- `StoryManager.playChapter`: find the chapter by id, reject a locked
one with `chapterLocked`, otherwise make it current and play
`Object.keys(chapter.nodes)[0]` — the FIRST KEY in the node map's
insertion order — then emit `chapterStarted`. -/
def StoryManager.playChapter (w : GameWorld) (chapterId : String) :
    GameWorld × List GameEvent × Bool :=
  match w.story.chapters.find? (fun c => c.id == chapterId) with
  | none => (w, [], false)
  | some chapter =>
      let locked : Bool :=
        match chapter.unlockCondition with
        | some cond => ! StoryManager.checkCondition w.story cond
        | none => false
      if locked then (w, [.chapterLocked chapterId], false)
      else
        let w1 := { w with story := { w.story with currentChapter := some chapter } }
        let played :=
          match (chapter.nodes.map Prod.fst).head? with
          | some firstNodeId =>
              let r := StoryManager.playNode w1 firstNodeId
              (r.1, r.2.1)
          | none => (w1, [])
        (played.1, played.2 ++ [.chapterStarted chapterId], true)

/-- `StoryManager.endChapter`: `findIndex` of the current chapter (−1 when
absent), advance to the next chapter in declaration order if one exists,
otherwise request the `ending` mode state and emit `storyEnded`.  The
`chapters[currentIndex + 1]` access is guarded by the length test, so the
defensive `none` branch is unreachable. -/
def StoryManager.endChapter (w : GameWorld) : GameWorld × List GameEvent × Bool :=
  let currentIndex : Int :=
    match w.story.currentChapter with
    | none => -1
    | some cur =>
        match w.story.chapters.findIdx? (fun c => c.id == cur.id) with
        | some i => (i : Int)
        | none => -1
  if currentIndex < (w.story.chapters.length : Int) - 1 then
    match w.story.chapters.get? (currentIndex + 1).toNat with
    | some nextChapter => StoryManager.playChapter w nextChapter.id
    | none => (w, [], false)
  else
    let r := w.machine.changeState .ending
    let evs := r.2.1.map fun e =>
      match e with
      | .stateChanged o n => GameEvent.stateChanged o n
    ({ w with machine := r.1 }, evs ++ [.storyEnded], true)

/-- `StoryManager.next`: follow the current node's `next` link; a missing
current node or a missing link ends the chapter. -/
def StoryManager.next (w : GameWorld) : GameWorld × List GameEvent × Bool :=
  match w.story.currentChapter with
  | none => (w, [], false)
  | some ch =>
      match alookup ch.nodes w.story.currentNodeId with
      | none => StoryManager.endChapter w
      | some currentNode =>
          match currentNode.next with
          | none => StoryManager.endChapter w
          | some nextId => StoryManager.playNode w nextId

/-- `StoryManager.applyEffects` on the local flag store: only the 'flag'
branch does anything ('unlock' and 'scene' are TODO stubs, other tags fall
through the switch). -/
def StoryManager.applyEffects (localFlags : List (String × Bool))
    (effects : List Effect) : List (String × Bool) :=
  effects.foldl
    (fun fl e => if e.type = "flag" then aset fl e.target e.value else fl)
    localFlags

/-- `StoryManager.selectChoice`: record the choice id, apply its effects
to the local flags, route each per-character favor delta through
`CharacterSystem.changeFavor`, then play the choice's target node. -/
def StoryManager.selectChoice (w : GameWorld) (choice : ChoiceData) :
    GameWorld × List GameEvent × Bool :=
  let st := w.story
  let st1 :=
    { st with
      choiceHistory := st.choiceHistory ++ [choice.id]
      localFlags := StoryManager.applyEffects st.localFlags choice.effects }
  let favorStep :=
    choice.favorChange.foldl
      (fun acc cd =>
        let r := CharacterSystem.changeFavor acc.1 cd.1 cd.2
        (r.chars, acc.2 ++ r.events.map GameEvent.charEvent))
      (w.characters, ([] : List GameEvent))
  let w1 := { w with story := st1, characters := favorStep.1 }
  let r := StoryManager.playNode w1 choice.next
  (r.1, favorStep.2 ++ r.2.1, r.2.2)

/-! ## Concrete story fixtures for the traversal analysis -/

/-- A narration node linking to `nB`. -/
def cexNodeA : StoryNode :=
  { id := "nA", type := .narration, speaker := none, content := "a",
    background := none, character := none, choices := [],
    next := some "nB", conditions := [], effects := [] }

/-- A terminal narration node. -/
def cexNodeB : StoryNode :=
  { id := "nB", type := .narration, speaker := none, content := "b",
    background := none, character := none, choices := [],
    next := none, conditions := [], effects := [] }

/-- A two-node chapter whose node map lists `nA` first. -/
def cexChapterA : Chapter :=
  { id := "chX", title := "x", description := "", unlockCondition := none,
    bgm := none, nodes := [("nA", cexNodeA), ("nB", cexNodeB)] }

/-- The same chapter with the node map keys in the opposite insertion
order (the same set of bindings). -/
def cexChapterB : Chapter :=
  { cexChapterA with nodes := [("nB", cexNodeB), ("nA", cexNodeA)] }

/-- A world whose story config holds `cexChapterA`. -/
def cexWorldA : GameWorld :=
  { initialWorld with story := { initialStory with chapters := [cexChapterA] } }

/-- A world whose story config holds `cexChapterB`. -/
def cexWorldB : GameWorld :=
  { initialWorld with story := { initialStory with chapters := [cexChapterB] } }

/-- `cexWorldA` mid-chapter: `cexChapterA` is current and the cursor is on
`nA`. -/
def cexWorldA2 : GameWorld :=
  { cexWorldA with
    story := { cexWorldA.story with
      currentChapter := some cexChapterA, currentNodeId := "nA" } }

/-- A choice whose target node id is `nB`. -/
def cexChoice : ChoiceData :=
  { id := "c1", text := "go", next := "nB", conditions := [], effects := [],
    favorChange := [] }

/-! ## Association-list lemmas -/

theorem alookup_aset_self {α : Type} (l : List (String × α)) (k : String) (v : α) :
    alookup (aset l k v) k = some v := by
  induction l with
  | nil => simp [aset, alookup]
  | cons hd tl ih =>
      obtain ⟨a, b⟩ := hd
      by_cases h : a = k
      · simp [aset, alookup, h]
      · simp [aset, alookup, h, ih]

theorem alookup_aset_ne {α : Type} (l : List (String × α)) (k k' : String) (v : α)
    (h : k' ≠ k) : alookup (aset l k v) k' = alookup l k' := by
  have hkk : k ≠ k' := Ne.symm h
  induction l with
  | nil => simp [aset, alookup, hkk]
  | cons hd tl ih =>
      obtain ⟨a, b⟩ := hd
      simp only [aset]
      by_cases ha : a = k
      · rw [if_pos ha]
        subst ha
        simp [alookup, hkk]
      · rw [if_neg ha]
        simp [alookup, ih]

theorem mem_keys_aset {α : Type} (l : List (String × α)) (k x : String) (v : α)
    (h : x ∈ (aset l k v).map Prod.fst) : x ∈ l.map Prod.fst ∨ x = k := by
  induction l with
  | nil =>
      simp only [aset, List.map_cons, List.map_nil, List.mem_singleton] at h
      exact Or.inr h
  | cons hd tl ih =>
      obtain ⟨a, b⟩ := hd
      simp only [aset] at h
      by_cases ha : a = k
      · rw [if_pos ha] at h
        simp only [List.map_cons, List.mem_cons] at h ⊢
        exact Or.inl h
      · rw [if_neg ha] at h
        simp only [List.map_cons, List.mem_cons] at h ⊢
        rcases h with h | h
        · exact Or.inl (Or.inl h)
        · rcases ih h with h | h
          · exact Or.inl (Or.inr h)
          · exact Or.inr h

theorem aset_keys_nodup {α : Type} (l : List (String × α)) (k : String) (v : α)
    (h : (l.map Prod.fst).Nodup) : ((aset l k v).map Prod.fst).Nodup := by
  induction l with
  | nil => simp [aset]
  | cons hd tl ih =>
      obtain ⟨a, b⟩ := hd
      simp only [List.map_cons, List.nodup_cons] at h
      simp only [aset]
      by_cases ha : a = k
      · rw [if_pos ha]
        simp only [List.map_cons, List.nodup_cons]
        exact h
      · rw [if_neg ha]
        simp only [List.map_cons, List.nodup_cons]
        refine ⟨fun hmem => ?_, ih h.2⟩
        rcases mem_keys_aset tl k a v hmem with hx | hx
        · exact h.1 hx
        · exact ha hx

theorem alookup_mem {α : Type} (l : List (String × α)) (k : String) (v : α)
    (h : alookup l k = some v) : (k, v) ∈ l := by
  induction l with
  | nil => simp [alookup] at h
  | cons hd tl ih =>
      obtain ⟨a, b⟩ := hd
      simp only [alookup] at h
      by_cases ha : a = k
      · rw [if_pos ha] at h
        have hb : b = v := by injection h
        rw [← ha, ← hb]
        exact List.mem_cons_self _ _
      · rw [if_neg ha] at h
        exact List.mem_cons_of_mem _ (ih h)

theorem mem_alookup {α : Type} (l : List (String × α)) (k : String) (v : α)
    (hnd : (l.map Prod.fst).Nodup) (h : (k, v) ∈ l) : alookup l k = some v := by
  induction l with
  | nil => simp at h
  | cons hd tl ih =>
      obtain ⟨a, b⟩ := hd
      simp only [List.map_cons, List.nodup_cons] at hnd
      rcases List.mem_cons.mp h with h | h
      · injection h with h1 h2
        subst h1; subst h2
        simp [alookup]
      · have hak : a ≠ k := by
          intro hc
          subst hc
          exact hnd.1 (List.mem_map_of_mem Prod.fst h)
        simp only [alookup]
        rw [if_neg hak]
        exact ih hnd.2 h

theorem alookup_eq_none_iff {α : Type} (l : List (String × α)) (k : String) :
    alookup l k = none ↔ k ∉ l.map Prod.fst := by
  induction l with
  | nil => simp [alookup]
  | cons hd tl ih =>
      obtain ⟨a, b⟩ := hd
      simp only [alookup, List.map_cons, List.mem_cons]
      by_cases ha : a = k
      · simp [ha]
      · simp [ha, ih, Ne.symm ha]

theorem alookup_aupdate_self {α : Type} (l : List (String × α)) (k : String) (u v : α)
    (h : alookup l k = some u) : alookup (aupdate l k v) k = some v := by
  induction l with
  | nil => simp [alookup] at h
  | cons hd tl ih =>
      obtain ⟨a, b⟩ := hd
      simp only [aupdate]
      by_cases ha : a = k
      · rw [if_pos ha]
        simp [alookup, ha]
      · rw [if_neg ha]
        simp only [alookup] at h
        rw [if_neg ha] at h
        simp only [alookup]
        rw [if_neg ha]
        exact ih h

theorem mem_aupdate {α : Type} (l : List (String × α)) (k : String) (v : α)
    (x : String × α) (h : x ∈ aupdate l k v) : x ∈ l ∨ x = (k, v) := by
  induction l with
  | nil => simp [aupdate] at h
  | cons hd tl ih =>
      obtain ⟨a, b⟩ := hd
      simp only [aupdate] at h
      by_cases ha : a = k
      · rw [if_pos ha] at h
        rcases List.mem_cons.mp h with h | h
        · refine Or.inr ?_
          rw [h, ha]
        · exact Or.inl (List.mem_cons_of_mem _ h)
      · rw [if_neg ha] at h
        rcases List.mem_cons.mp h with h | h
        · refine Or.inl ?_
          rw [h]
          exact List.mem_cons_self _ _
        · rcases ih h with h | h
          · exact Or.inl (List.mem_cons_of_mem _ h)
          · exact Or.inr h

/-! ## CharacterSystem lemmas -/

/-- The level-transition check of the source compares the freshly derived
level against itself, so it can never emit anything. -/
theorem checkFavorLevel_eq_nil (chars : CharacterMap) (characterId : String) :
    CharacterSystem.checkFavorLevel chars characterId = [] := by
  simp [CharacterSystem.checkFavorLevel]

/-- The map produced by `changeFavor`, independent of event emission. -/
theorem changeFavor_chars_eq (chars : CharacterMap) (characterId : String) (d : Int) :
    (CharacterSystem.changeFavor chars characterId d).chars =
      match alookup chars characterId with
      | none => chars
      | some c =>
          aupdate chars characterId
            { c with favor := max 0 (min c.maxFavor (c.favor + d)) } := by
  unfold CharacterSystem.changeFavor
  cases alookup chars characterId with
  | none => rfl
  | some c =>
      dsimp only
      split <;> rfl

/-- One `changeFavor` call preserves the clamping invariant. -/
theorem changeFavor_step_inv (chars : CharacterMap) (characterId : String) (d : Int)
    (h : FavorInv chars) :
    FavorInv (CharacterSystem.changeFavor chars characterId d).chars := by
  rw [changeFavor_chars_eq]
  cases hx : alookup chars characterId with
  | none => exact h
  | some c =>
      intro p hp
      rcases mem_aupdate _ _ _ _ hp with hp | hp
      · exact h _ hp
      · subst hp
        have hb := h _ (alookup_mem _ _ _ hx)
        constructor
        · exact le_max_left _ _
        · exact max_le (hb.1.trans hb.2) (min_le_left _ _)

/-! ## Claim theorems -/

/-- C1: contrary to the claim, NO level-transition notification is ever
emitted.  `checkFavorLevel` recomputes the level twice on the post-mutation
state (the pre-mutation level is not cached; the source carries a TODO for
it), so its guard compares a value with itself and its event list is
always empty.  On the claim's own scenario — `heroine_1` brought to favor
300 of 1000, then `changeFavor` by +400 — favor indeed becomes 700 (level
6), the pre-mutation level is 3 (not the claimed 4: 300/1000 < 0.40), and
the only emitted event is the `favorChanged` notification: no
`favorLevelUp`. -/
theorem checkFavorLevel_never_fires :
    (∀ (chars : CharacterMap) (characterId : String),
        CharacterSystem.checkFavorLevel chars characterId = []) ∧
    CharacterSystem.getFavorLevel
      (CharacterSystem.changeFavor initialCharacters "heroine_1" 300).chars
      "heroine_1" = 3 ∧
    (CharacterSystem.changeFavor
      (CharacterSystem.changeFavor initialCharacters "heroine_1" 300).chars
      "heroine_1" 400).actualDelta = 400 ∧
    (alookup (CharacterSystem.changeFavor
        (CharacterSystem.changeFavor initialCharacters "heroine_1" 300).chars
        "heroine_1" 400).chars "heroine_1").map CharacterData.favor = some 700 ∧
    CharacterSystem.getFavorLevel
      (CharacterSystem.changeFavor
        (CharacterSystem.changeFavor initialCharacters "heroine_1" 300).chars
        "heroine_1" 400).chars "heroine_1" = 6 ∧
    (CharacterSystem.changeFavor
      (CharacterSystem.changeFavor initialCharacters "heroine_1" 300).chars
      "heroine_1" 400).events =
      [CharacterEvent.favorChanged "heroine_1" 400 700] := by
  refine ⟨fun chars characterId => checkFavorLevel_eq_nil chars characterId,
    ?_, ?_, ?_, ?_, ?_⟩ <;> decide

/-- C3: every sequence of `changeFavor` mutations preserves the clamping
invariant `0 ≤ favor ≤ maxFavor` for every character in the roster. -/
theorem changeFavor_seq_preserves_bounds (chars : CharacterMap)
    (ds : List (String × Int)) (h : FavorInv chars) :
    FavorInv (CharacterSystem.changeFavorSeq chars ds) := by
  induction ds generalizing chars with
  | nil => simpa [CharacterSystem.changeFavorSeq] using h
  | cons hd tl ih =>
      simp only [CharacterSystem.changeFavorSeq, List.foldl_cons] at *
      exact ih _ (changeFavor_step_inv _ _ _ h)

/-- C3 witness: the initial roster satisfies the invariant and keeps it
under a sequence with an overflowing and an underflowing delta. -/
theorem changeFavor_seq_preserves_bounds_witness :
    FavorInv initialCharacters ∧
    FavorInv (CharacterSystem.changeFavorSeq initialCharacters
      [("heroine_1", 2000), ("heroine_1", -99999), ("heroine_2", 37)]) :=
  ⟨by decide,
    changeFavor_seq_preserves_bounds initialCharacters
      [("heroine_1", 2000), ("heroine_1", -99999), ("heroine_2", 37)] (by decide)⟩

/-- C5: `changeFavor` returns `actualDelta = newValue − oldValue` with the
new value clamped into `[0, maxFavor]`, and the emitted `favorChanged`
notification (emitted exactly when the actual delta is nonzero) carries
that actual delta and the new value; moreover the claim's concrete
scenario holds: +15 then +20 from favor 0 of 1000 yields favor 35, the two
notifications carry deltas 15 and 20, and the level stays 1 throughout. -/
theorem changeFavor_actualDelta_spec (chars : CharacterMap) (characterId : String)
    (d : Int) (c : CharacterData) (h : alookup chars characterId = some c) :
    ((CharacterSystem.changeFavor chars characterId d).actualDelta =
        max 0 (min c.maxFavor (c.favor + d)) - c.favor ∧
      (CharacterSystem.changeFavor chars characterId d).events =
        (if max 0 (min c.maxFavor (c.favor + d)) - c.favor = 0 then []
         else [CharacterEvent.favorChanged characterId
                (max 0 (min c.maxFavor (c.favor + d)) - c.favor)
                (max 0 (min c.maxFavor (c.favor + d)))])) ∧
    ((CharacterSystem.changeFavor initialCharacters "heroine_1" 15).actualDelta = 15 ∧
      (CharacterSystem.changeFavor initialCharacters "heroine_1" 15).events =
        [CharacterEvent.favorChanged "heroine_1" 15 15] ∧
      (CharacterSystem.changeFavor
        (CharacterSystem.changeFavor initialCharacters "heroine_1" 15).chars
        "heroine_1" 20).actualDelta = 20 ∧
      (CharacterSystem.changeFavor
        (CharacterSystem.changeFavor initialCharacters "heroine_1" 15).chars
        "heroine_1" 20).events =
        [CharacterEvent.favorChanged "heroine_1" 20 35] ∧
      (alookup (CharacterSystem.changeFavor
          (CharacterSystem.changeFavor initialCharacters "heroine_1" 15).chars
          "heroine_1" 20).chars "heroine_1").map CharacterData.favor = some 35 ∧
      CharacterSystem.getFavorLevel
        (CharacterSystem.changeFavor
          (CharacterSystem.changeFavor initialCharacters "heroine_1" 15).chars
          "heroine_1" 20).chars "heroine_1" = 1) := by
  constructor
  · unfold CharacterSystem.changeFavor
    rw [h]
    dsimp only
    rw [checkFavorLevel_eq_nil]
    by_cases hz : max 0 (min c.maxFavor (c.favor + d)) - c.favor = 0
    · rw [if_neg (by simpa using hz), if_pos hz]
      exact ⟨rfl, rfl⟩
    · rw [if_pos (by simpa using hz), if_neg hz]
      refine ⟨rfl, ?_⟩
      simp
  · refine ⟨?_, ?_, ?_, ?_, ?_, ?_⟩ <;> decide

/-- C5 witness: the general part of `changeFavor_actualDelta_spec`
instantiated on the initial roster at a clamping delta (+2000 applies as
+1000). -/
theorem changeFavor_actualDelta_spec_witness :
    (CharacterSystem.changeFavor initialCharacters "heroine_1" 2000).actualDelta
        = 1000 ∧
    (CharacterSystem.changeFavor initialCharacters "heroine_1" 2000).events =
      [CharacterEvent.favorChanged "heroine_1" 1000 1000] := by
  have h := (changeFavor_actualDelta_spec initialCharacters "heroine_1" 2000
    { id := "heroine_1", name := "林雨晴", title := "学生会会长",
      sprites :=
        [ ("normal", "char_001_normal"), ("smile", "char_001_smile"),
          ("blush", "char_001_blush"), ("angry", "char_001_angry"),
          ("sad", "char_001_sad"), ("surprise", "char_001_surprise"),
          ("think", "char_001_think"), ("laugh", "char_001_laugh") ],
      favor := 0, maxFavor := 1000, unlocked := false,
      endings := [], events := [] } (by decide)).1
  refine ⟨?_, ?_⟩
  · rw [h.1]; decide
  · rw [h.2]; decide

/-- C9: `unlockCharacter` is idempotent: on a locked roster character the
first call unlocks and emits exactly one `characterUnlocked` notification;
the second call returns failure, emits nothing and leaves the map
untouched. -/
theorem unlockCharacter_idempotent (chars : CharacterMap) (characterId : String)
    (c : CharacterData) (h : alookup chars characterId = some c)
    (hu : c.unlocked = false) :
    (CharacterSystem.unlockCharacter chars characterId).ok = true ∧
    (CharacterSystem.unlockCharacter chars characterId).events =
      [CharacterEvent.characterUnlocked characterId] ∧
    (alookup (CharacterSystem.unlockCharacter chars characterId).chars
        characterId).map CharacterData.unlocked = some true ∧
    (CharacterSystem.unlockCharacter
        (CharacterSystem.unlockCharacter chars characterId).chars characterId).ok
      = false ∧
    (CharacterSystem.unlockCharacter
        (CharacterSystem.unlockCharacter chars characterId).chars characterId).events
      = [] ∧
    (CharacterSystem.unlockCharacter
        (CharacterSystem.unlockCharacter chars characterId).chars characterId).chars
      = (CharacterSystem.unlockCharacter chars characterId).chars := by
  have h1 : CharacterSystem.unlockCharacter chars characterId =
      ⟨aupdate chars characterId { c with unlocked := true },
        [CharacterEvent.characterUnlocked characterId], true⟩ := by
    unfold CharacterSystem.unlockCharacter
    rw [h]
    simp [hu]
  have h2 : alookup (aupdate chars characterId { c with unlocked := true })
      characterId = some { c with unlocked := true } :=
    alookup_aupdate_self chars characterId c { c with unlocked := true } h
  have h3 : CharacterSystem.unlockCharacter
      (aupdate chars characterId { c with unlocked := true }) characterId =
      ⟨aupdate chars characterId { c with unlocked := true }, [], false⟩ := by
    unfold CharacterSystem.unlockCharacter
    rw [h2]
    simp
  rw [h1]
  refine ⟨rfl, rfl, ?_, ?_, ?_, ?_⟩
  · rw [h2]; rfl
  · rw [h3]
  · rw [h3]
  · rw [h3]

/-- C9 witness: unlocking `heroine_2` twice on the initial roster. -/
theorem unlockCharacter_idempotent_witness :
    (CharacterSystem.unlockCharacter initialCharacters "heroine_2").events =
      [CharacterEvent.characterUnlocked "heroine_2"] ∧
    (CharacterSystem.unlockCharacter
        (CharacterSystem.unlockCharacter initialCharacters "heroine_2").chars
        "heroine_2").events = [] := by
  have h := unlockCharacter_idempotent initialCharacters "heroine_2"
    { id := "heroine_2", name := "苏小晚", title := "元气学妹",
      sprites :=
        [ ("normal", "char_002_normal"), ("smile", "char_002_smile"),
          ("blush", "char_002_blush"), ("angry", "char_002_angry"),
          ("sad", "char_002_sad"), ("surprise", "char_002_surprise"),
          ("think", "char_002_think"), ("laugh", "char_002_laugh") ],
      favor := 0, maxFavor := 1000, unlocked := false,
      endings := [], events := [] } (by decide) (by decide)
  exact ⟨h.2.1, h.2.2.2.2.1⟩

/-- C10: `changeFavor` on an id absent from the roster returns 0, mutates
nothing and emits nothing, and `getFavorLevel` on such an id returns 0
(outside the documented 1–7 range). -/
theorem changeFavor_unknown_id_noop (chars : CharacterMap) (characterId : String)
    (d : Int) (h : alookup chars characterId = none) :
    CharacterSystem.changeFavor chars characterId d = ⟨chars, [], 0⟩ ∧
    CharacterSystem.getFavorLevel chars characterId = 0 := by
  constructor
  · unfold CharacterSystem.changeFavor
    rw [h]
  · unfold CharacterSystem.getFavorLevel
    rw [h]

/-- C10 witness: the id `nobody` is not in the initial roster. -/
theorem changeFavor_unknown_id_noop_witness :
    alookup initialCharacters "nobody" = none ∧
    CharacterSystem.changeFavor initialCharacters "nobody" 42 =
      ⟨initialCharacters, [], 0⟩ ∧
    CharacterSystem.getFavorLevel initialCharacters "nobody" = 0 := by
  refine ⟨by decide, ?_, ?_⟩
  · exact (changeFavor_unknown_id_noop initialCharacters "nobody" 42 (by decide)).1
  · exact (changeFavor_unknown_id_noop initialCharacters "nobody" 42 (by decide)).2

/-- C6: a `changeState` request whose target is outside the current
state's allowed set returns `false` and leaves the whole machine
(current/previous state, menu/dialog sub-states and the history stack)
untouched, emitting nothing. -/
theorem changeState_illegal_rejected (m : GameStateMachine) (target : GameState)
    (h : m.canTransition target = false) :
    m.changeState target = (m, [], false) := by
  unfold GameStateMachine.changeState
  simp [h]

/-- C6 witness: `credits` is not reachable from `playing`, so the request
fails and the machine still shows `playing`. -/
theorem changeState_illegal_rejected_witness :
    ({ initialStateMachine with
        currentState := GameState.playing } : GameStateMachine).canTransition
      GameState.credits = false ∧
    ({ initialStateMachine with
        currentState := GameState.playing } : GameStateMachine).changeState
      GameState.credits =
      ({ initialStateMachine with currentState := GameState.playing }, [], false) ∧
    (({ initialStateMachine with
        currentState := GameState.playing } : GameStateMachine).changeState
      GameState.credits).1.currentState = GameState.playing :=
  ⟨by decide,
    changeState_illegal_rejected _ GameState.credits (by decide),
    by rw [changeState_illegal_rejected _ GameState.credits (by decide)]⟩

/-- C8: while `_isSaving` is set, any further `save` call — whatever the
slot — returns `false` immediately, writes nothing to storage, emits no
notification and leaves the entire world unchanged. -/
theorem save_busy_rejected (w : GameWorld) (slot : Int) (extraData : SaveOverrides)
    (now : Int) (h : w.save.isSaving = true) :
    SaveLoadSystem.save w slot extraData now = (w, [], false) := by
  unfold SaveLoadSystem.save
  simp [h]

/-- C8 witness: a world whose save system is mid-save rejects a save to
slot 0. -/
theorem save_busy_rejected_witness :
    ({ initialWorld with
        save := { initialSaveLoad with isSaving := true } } : GameWorld).save.isSaving
      = true ∧
    SaveLoadSystem.save
      { initialWorld with save := { initialSaveLoad with isSaving := true } }
      0 SaveOverrides.empty 12345 =
      ({ initialWorld with save := { initialSaveLoad with isSaving := true } },
        [], false) :=
  ⟨rfl, save_busy_rejected _ 0 SaveOverrides.empty 12345 rfl⟩

/-- C2: the save round trip does NOT restore flags or the story cursor.
`collectSaveData` stores an always-empty flag map (its `collectFlags` is a
TODO stub) and `applySaveData` never pushes flags or the chapter/node
cursor back (both are TODOs in the source): with flag `polite` true at
export time, applying the exported snapshot to a world back at defaults
leaves `polite` false and the story state untouched; only character data
and the play-time origin are applied. -/
theorem saveRoundTrip_drops_flags :
    FlagManager.get ((initialFlagManager.set "polite" true).1) "polite" = true ∧
    (SaveLoadSystem.collectSaveData
        { initialWorld with flags := (initialFlagManager.set "polite" true).1 }
        0 SaveOverrides.empty 1000).flags = [] ∧
    FlagManager.get
      ((SaveLoadSystem.applySaveData initialWorld
          (SaveLoadSystem.collectSaveData
            { initialWorld with flags := (initialFlagManager.set "polite" true).1 }
            0 SaveOverrides.empty 1000)
          2000).1.flags) "polite" = false ∧
    (SaveLoadSystem.applySaveData initialWorld
        (SaveLoadSystem.collectSaveData
          { initialWorld with flags := (initialFlagManager.set "polite" true).1 }
          0 SaveOverrides.empty 1000)
        2000).1.story = initialWorld.story := by
  refine ⟨by decide, rfl, by decide, rfl⟩

/-! ## FlagManager lemmas -/

theorem alookup_aset_isSome {α : Type} (l : List (String × α)) (k k' : String) (v : α)
    (h : (alookup l k').isSome = true) : (alookup (aset l k v) k').isSome = true := by
  by_cases hk : k' = k
  · subst hk
    rw [alookup_aset_self]
    rfl
  · rw [alookup_aset_ne _ _ _ _ hk]
    exact h

theorem FlagManager.set_definitions (fm : FlagManager) (k : String) (v : Bool) :
    ((fm.set k v).1).definitions = fm.definitions := by
  by_cases h : fm.get k = v <;> simp [FlagManager.set, h]

theorem FlagManager.set_fst_eq (fm : FlagManager) (k : String) (v : Bool) :
    (fm.set k v).1 =
      if fm.get k = v then fm else { fm with flags := aset fm.flags k v } := by
  by_cases h : fm.get k = v <;> simp [FlagManager.set, h]

theorem FlagManager.get_set (fm : FlagManager) (k : String) (v : Bool) (k' : String) :
    ((fm.set k v).1).get k' = if k' = k then v else fm.get k' := by
  rw [FlagManager.set_fst_eq]
  by_cases h : fm.get k = v
  · rw [if_pos h]
    by_cases hk : k' = k
    · subst hk
      rw [if_pos rfl, h]
    · rw [if_neg hk]
  · rw [if_neg h]
    by_cases hk : k' = k
    · subst hk
      rw [if_pos rfl]
      unfold FlagManager.get
      simp only [alookup_aset_self, Option.getD_some]
    · rw [if_neg hk]
      unfold FlagManager.get
      rw [alookup_aset_ne _ _ _ _ hk]

theorem FlagManager.set_flags_keys_nodup (fm : FlagManager) (k : String) (v : Bool)
    (h : (fm.flags.map Prod.fst).Nodup) :
    (((fm.set k v).1).flags.map Prod.fst).Nodup := by
  by_cases hc : fm.get k = v
  · simpa [FlagManager.set, hc] using h
  · simp only [FlagManager.set, hc, if_false]
    exact aset_keys_nodup _ _ _ h

theorem FlagManager.set_flags_cov (fm : FlagManager) (k : String) (v : Bool)
    (hcov : ∀ kd ∈ fm.definitions, (alookup fm.flags kd.1).isSome = true) :
    ∀ kd ∈ ((fm.set k v).1).definitions,
      (alookup ((fm.set k v).1).flags kd.1).isSome = true := by
  intro kd hkd
  rw [FlagManager.set_definitions] at hkd
  by_cases hc : fm.get k = v
  · simpa [FlagManager.set, hc] using hcov kd hkd
  · simp only [FlagManager.set, hc, if_false]
    exact alookup_aset_isSome _ _ _ _ (hcov kd hkd)

theorem FlagManager.applySets_get_not_mem (fm : FlagManager)
    (data : List (String × Bool)) (k : String) (h : k ∉ data.map Prod.fst) :
    (fm.applySets data).get k = fm.get k := by
  induction data generalizing fm with
  | nil => rfl
  | cons hd tl ih =>
      simp only [List.map_cons, List.mem_cons, not_or] at h
      show (((fm.set hd.1 hd.2).1).applySets tl).get k = fm.get k
      rw [ih _ h.2, FlagManager.get_set, if_neg h.1]

theorem FlagManager.applySets_get_nodup (fm : FlagManager)
    (data : List (String × Bool)) (hnd : (data.map Prod.fst).Nodup) (k : String) :
    (fm.applySets data).get k = (alookup data k).getD (fm.get k) := by
  induction data generalizing fm with
  | nil => rfl
  | cons hd tl ih =>
      obtain ⟨a, b⟩ := hd
      simp only [List.map_cons, List.nodup_cons] at hnd
      show (((fm.set a b).1).applySets tl).get k = _
      by_cases hk : k = a
      · subst hk
        rw [FlagManager.applySets_get_not_mem _ _ _ hnd.1, FlagManager.get_set,
          if_pos rfl]
        simp [alookup]
      · have ha : a ≠ k := fun hc => hk hc.symm
        rw [ih _ hnd.2, FlagManager.get_set, if_neg hk]
        simp only [alookup]
        rw [if_neg ha]

theorem FlagManager.importData_fst_aux (data : List (String × Bool))
    (fm0 : FlagManager) (evs : List FlagEvent) :
    (data.foldl
        (fun acc kv =>
          let s := acc.1.set kv.1 kv.2
          (s.1, acc.2 ++ s.2))
        (fm0, evs)).1 = fm0.applySets data := by
  induction data generalizing fm0 evs with
  | nil => rfl
  | cons hd tl ih =>
      show (tl.foldl _ ((fm0.set hd.1 hd.2).1, _)).1 = _
      exact ih _ _

theorem FlagManager.importData_fst (fm : FlagManager) (data : List (String × Bool)) :
    (fm.importData data).1 = (fm.reset).applySets data :=
  FlagManager.importData_fst_aux data fm.reset [FlagEvent.resetDone]

theorem foldl_aset_defaults_not_mem (ds : List (String × FlagDefinition))
    (fl : List (String × Bool)) (k : String) (h : k ∉ ds.map Prod.fst) :
    alookup (ds.foldl (fun fl kd => aset fl kd.1 kd.2.defaultValue) fl) k =
      alookup fl k := by
  induction ds generalizing fl with
  | nil => rfl
  | cons hd tl ih =>
      simp only [List.map_cons, List.mem_cons, not_or] at h
      simp only [List.foldl_cons]
      rw [ih _ h.2, alookup_aset_ne _ _ _ _ h.1]

theorem foldl_aset_defaults_declared (ds : List (String × FlagDefinition))
    (fl : List (String × Bool)) (k : String) (d : FlagDefinition)
    (hnd : (ds.map Prod.fst).Nodup) (hk : alookup ds k = some d) :
    alookup (ds.foldl (fun fl kd => aset fl kd.1 kd.2.defaultValue) fl) k =
      some d.defaultValue := by
  induction ds generalizing fl with
  | nil => simp [alookup] at hk
  | cons hd tl ih =>
      obtain ⟨a, d0⟩ := hd
      simp only [List.map_cons, List.nodup_cons] at hnd
      simp only [alookup] at hk
      simp only [List.foldl_cons]
      by_cases ha : a = k
      · rw [if_pos ha] at hk
        have hd0 : d0 = d := by injection hk
        subst ha
        rw [foldl_aset_defaults_not_mem _ _ _ hnd.1, alookup_aset_self, hd0]
      · rw [if_neg ha] at hk
        exact ih _ hnd.2 hk

theorem FlagManager.reset_get_declared (fm : FlagManager) (k : String)
    (d : FlagDefinition) (hnddefs : (fm.definitions.map Prod.fst).Nodup)
    (hk : alookup fm.definitions k = some d) :
    fm.reset.get k = d.defaultValue := by
  unfold FlagManager.reset FlagManager.get
  rw [foldl_aset_defaults_declared _ _ _ _ hnddefs hk]
  rfl

theorem alookup_filter {α : Type} (l : List (String × α)) (p : String × α → Bool)
    (k : String) (hnd : (l.map Prod.fst).Nodup) :
    alookup (l.filter p) k =
      (alookup l k).bind fun v => if p (k, v) then some v else none := by
  induction l with
  | nil => simp [alookup]
  | cons hd tl ih =>
      obtain ⟨a, b⟩ := hd
      simp only [List.map_cons, List.nodup_cons] at hnd
      by_cases hp : p (a, b)
      · rw [List.filter_cons_of_pos hp]
        simp only [alookup]
        by_cases ha : a = k
        · subst ha
          simp [hp]
        · rw [if_neg ha, if_neg ha]
          exact ih hnd.2
      · rw [List.filter_cons_of_neg (by simpa using hp)]
        simp only [alookup]
        by_cases ha : a = k
        · subst ha
          rw [if_pos rfl]
          have hnone : alookup (tl.filter p) a = none := by
            rw [alookup_eq_none_iff]
            intro hc
            obtain ⟨x, hx, hfst⟩ := List.mem_map.mp hc
            exact hnd.1 (hfst ▸ List.mem_map_of_mem Prod.fst (List.mem_of_mem_filter hx))
          rw [hnone]
          simp [hp]
        · rw [if_neg ha]
          exact ih hnd.2

theorem FlagManager.exportData_lookup (fm : FlagManager)
    (hnd : (fm.flags.map Prod.fst).Nodup) (k' : String) :
    alookup fm.exportData k' =
      (alookup fm.flags k').bind fun v =>
        match alookup fm.definitions k' with
        | some d => if v ≠ d.defaultValue then some v else none
        | none => none := by
  unfold FlagManager.exportData
  rw [alookup_filter _ _ _ hnd]
  cases alookup fm.flags k' with
  | none => rfl
  | some v =>
      simp only [Option.some_bind]
      cases alookup fm.definitions k' with
      | none => simp
      | some d =>
          by_cases hv : v = d.defaultValue
          · simp [hv]
          · simp [hv]

theorem FlagManager.exportData_keys_nodup (fm : FlagManager)
    (hnd : (fm.flags.map Prod.fst).Nodup) :
    ((fm.exportData).map Prod.fst).Nodup :=
  List.Nodup.sublist (List.Sublist.map Prod.fst (List.filter_sublist _)) hnd

/-- The generic sparse round trip: importing the sparse export into any
store with the same declarations reproduces the exporting store's value on
every declared flag. -/
theorem FlagManager.importData_roundTrip_get (fm fresh : FlagManager)
    (hdefs : fresh.definitions = fm.definitions)
    (hnd : (fm.flags.map Prod.fst).Nodup)
    (hnddefs : (fm.definitions.map Prod.fst).Nodup)
    (hcov : ∀ kd ∈ fm.definitions, (alookup fm.flags kd.1).isSome = true)
    (k : String) (d : FlagDefinition) (hk : alookup fm.definitions k = some d) :
    (fresh.importData fm.exportData).1.get k = fm.get k := by
  rw [FlagManager.importData_fst,
    FlagManager.applySets_get_nodup _ _ (FlagManager.exportData_keys_nodup fm hnd),
    FlagManager.exportData_lookup fm hnd k, hk]
  cases hv : alookup fm.flags k with
  | none =>
      exfalso
      have hc := hcov (k, d) (alookup_mem _ _ _ hk)
      rw [hv] at hc
      simp at hc
  | some v =>
      by_cases hvd : v = d.defaultValue
      · rw [FlagManager.reset_get_declared fresh k d (hdefs ▸ hnddefs) (hdefs ▸ hk)]
        unfold FlagManager.get
        rw [hv]
        simp [hvd]
      · unfold FlagManager.get
        rw [hv]
        simp [hvd]

/-- C7: sparse flag export/import.  For any flag store `fm` with
duplicate-free flag and definition keys in which every declared flag has a
stored value (as the constructor, `set`, `reset` and `addFlag` all
maintain), and any import-target store `fresh` with the same declaration
table: (a) the export contains exactly the declared flags whose stored
value differs from their declared default; (b) import (reset to defaults,
then apply the sparse set) reproduces the exporting store's value on every
declared flag; (c) hence after setting a declared flag `k` to its own
default, exporting and importing into `fresh`, the flag reads back its
default — the same observable value as if it had never been set. -/
theorem flag_sparse_export_import (fm fresh : FlagManager)
    (hdefs : fresh.definitions = fm.definitions)
    (hnd : (fm.flags.map Prod.fst).Nodup)
    (hnddefs : (fm.definitions.map Prod.fst).Nodup)
    (hcov : ∀ kd ∈ fm.definitions, (alookup fm.flags kd.1).isSome = true)
    (k : String) (d : FlagDefinition) (hk : alookup fm.definitions k = some d) :
    (∀ k' : String,
        alookup fm.exportData k' =
          (alookup fm.flags k').bind fun v =>
            match alookup fm.definitions k' with
            | some d' => if v ≠ d'.defaultValue then some v else none
            | none => none) ∧
    (fresh.importData fm.exportData).1.get k = fm.get k ∧
    (fresh.importData (((fm.set k d.defaultValue).1).exportData)).1.get k
      = d.defaultValue := by
  refine ⟨fun k' => FlagManager.exportData_lookup fm hnd k',
    FlagManager.importData_roundTrip_get fm fresh hdefs hnd hnddefs hcov k d hk, ?_⟩
  have hdefs' : ((fm.set k d.defaultValue).1).definitions = fm.definitions :=
    FlagManager.set_definitions fm k d.defaultValue
  have hrt := FlagManager.importData_roundTrip_get (fm.set k d.defaultValue).1 fresh
    (hdefs.trans hdefs'.symm)
    (FlagManager.set_flags_keys_nodup fm k d.defaultValue hnd)
    (hdefs' ▸ hnddefs)
    (FlagManager.set_flags_cov fm k d.defaultValue hcov)
    k d (hdefs' ▸ hk)
  rw [hrt, FlagManager.get_set, if_pos rfl]

/-- C7 witness: on the real flag table, a store holding the non-default
`met_yuqing = true` round-trips `polite` through export/import into a
fresh store, and setting `polite` to its default `false` before the round
trip reads back `false`. -/
theorem flag_sparse_export_import_witness :
    ((initialFlagManager.importData
        (((initialFlagManager.set "met_yuqing" true).1).exportData)).1).get "polite"
      = ((initialFlagManager.set "met_yuqing" true).1).get "polite" ∧
    ((initialFlagManager.importData
        (((((initialFlagManager.set "met_yuqing" true).1).set "polite"
            false).1).exportData)).1).get "polite" = false := by
  have h := flag_sparse_export_import
    ((initialFlagManager.set "met_yuqing" true).1) initialFlagManager
    (by decide) (by decide) (by decide) (by decide) "polite"
    { key := "polite", defaultValue := false, description := "是否礼貌回应",
      tags := ["choice"] }
    (by decide)
  exact ⟨h.2.1, h.2.2⟩

/-! ## Story traversal lemmas -/

theorem alookup_perm {α : Type} (l l' : List (String × α)) (hperm : l.Perm l')
    (hnd : (l.map Prod.fst).Nodup) (k : String) : alookup l' k = alookup l k := by
  cases h : alookup l k with
  | some v =>
      have hnd' : (l'.map Prod.fst).Nodup := ((hperm.map Prod.fst).nodup_iff).mp hnd
      exact mem_alookup l' k v hnd' (hperm.mem_iff.mp (alookup_mem _ _ _ h))
  | none =>
      rw [alookup_eq_none_iff] at h ⊢
      exact fun hc => h (((hperm.map Prod.fst).mem_iff).mpr hc)

theorem playNode_found (w : GameWorld) (ch : Chapter) (nodeId : String)
    (node : StoryNode) (hcur : w.story.currentChapter = some ch)
    (hn : alookup ch.nodes nodeId = some node) :
    StoryManager.playNode w nodeId =
      ({ w with story :=
          { w.story with
            currentNodeId := nodeId
            visitedNodes :=
              if nodeId ∈ w.story.visitedNodes then w.story.visitedNodes
              else w.story.visitedNodes ++ [nodeId] } },
        [GameEvent.nodePlayed nodeId], true) := by
  unfold StoryManager.playNode
  simp only [hcur, hn]

theorem next_follows_link (w : GameWorld) (ch : Chapter) (node tnode : StoryNode)
    (nid : String) (hcur : w.story.currentChapter = some ch)
    (hn : alookup ch.nodes w.story.currentNodeId = some node)
    (hnext : node.next = some nid) (ht : alookup ch.nodes nid = some tnode) :
    (StoryManager.next w).1.story.currentNodeId = nid ∧
    (StoryManager.next w).2.2 = true := by
  unfold StoryManager.next
  simp only [hcur, hn, hnext]
  rw [playNode_found w ch nid tnode hcur ht]
  exact ⟨rfl, rfl⟩

theorem playNode_steps (w : GameWorld) (ch : Chapter) (nodeId : String)
    (node : StoryNode) (hcur : w.story.currentChapter = some ch)
    (hn : alookup ch.nodes nodeId = some node) :
    (StoryManager.playNode w nodeId).1.story.currentNodeId = nodeId ∧
    (StoryManager.playNode w nodeId).2.2 = true := by
  rw [playNode_found w ch nodeId node hcur hn]
  exact ⟨rfl, rfl⟩

theorem selectChoice_follows_target (w : GameWorld) (ch : Chapter)
    (choice : ChoiceData) (tnode : StoryNode)
    (hcur : w.story.currentChapter = some ch)
    (ht : alookup ch.nodes choice.next = some tnode) :
    (StoryManager.selectChoice w choice).1.story.currentNodeId = choice.next ∧
    (StoryManager.selectChoice w choice).2.2 = true := by
  unfold StoryManager.selectChoice
  dsimp only
  refine playNode_steps _ ch choice.next tnode ?_ ?_
  · exact hcur
  · exact ht

theorem playChapter_entry (w : GameWorld) (chId : String) (ch : Chapter)
    (k0 : String) (n0 : StoryNode) (rest : List (String × StoryNode))
    (hfind : w.story.chapters.find? (fun c => c.id == chId) = some ch)
    (hlock : (match ch.unlockCondition with
              | some cond => ! StoryManager.checkCondition w.story cond
              | none => false) = false)
    (hnodes : ch.nodes = (k0, n0) :: rest) :
    (StoryManager.playChapter w chId).1.story.currentNodeId = k0 ∧
    (StoryManager.playChapter w chId).1.story.currentChapter = some ch ∧
    (StoryManager.playChapter w chId).2.2 = true := by
  have hn0 : alookup ch.nodes k0 = some n0 := by
    rw [hnodes]
    simp [alookup]
  have hcur : ({ w with story := { w.story with currentChapter := some ch } } :
      GameWorld).story.currentChapter = some ch := rfl
  unfold StoryManager.playChapter
  simp only [hfind, hlock, hnodes, List.map_cons, List.head?_cons,
    Bool.false_eq_true, if_false]
  rw [playNode_found _ ch k0 n0 hcur hn0]
  simp

/-- C4 (amended): traversal via `next` and via `selectChoice` is driven
exclusively by node ids resolved through lookup — the current node's
`next` link and the choice's target id respectively — and in particular
both steps are invariant under permuting the chapter's
(duplicate-key-free) node map; but `playChapter` enters the chapter at the
FIRST KEY of the node map's insertion order
(`Object.keys(chapter.nodes)[0]`; there is no designated entry-node
field), so the node played by `playChapter` does depend on key order. -/
theorem story_traversal_links_and_entry
    (w : GameWorld) (chId : String) (ch : Chapter) (k0 : String) (n0 : StoryNode)
    (rest : List (String × StoryNode))
    (hfind : w.story.chapters.find? (fun c => c.id == chId) = some ch)
    (hlock : (match ch.unlockCondition with
              | some cond => ! StoryManager.checkCondition w.story cond
              | none => false) = false)
    (hnodes : ch.nodes = (k0, n0) :: rest)
    (w2 : GameWorld) (ch2 ch2' : Chapter) (node tnode : StoryNode) (nid : String)
    (choice : ChoiceData)
    (hcur : w2.story.currentChapter = some ch2)
    (hn : alookup ch2.nodes w2.story.currentNodeId = some node)
    (hnext : node.next = some nid)
    (ht : alookup ch2.nodes nid = some tnode)
    (hcn : choice.next = nid)
    (hperm : ch2.nodes.Perm ch2'.nodes)
    (hnd : (ch2.nodes.map Prod.fst).Nodup) :
    (StoryManager.playChapter w chId).1.story.currentNodeId = k0 ∧
    (StoryManager.playChapter w chId).2.2 = true ∧
    (StoryManager.next w2).1.story.currentNodeId = nid ∧
    (StoryManager.next { w2 with story :=
        { w2.story with
          currentChapter := some ch2' } }).1.story.currentNodeId = nid ∧
    (StoryManager.selectChoice w2 choice).1.story.currentNodeId = nid ∧
    (StoryManager.selectChoice { w2 with story :=
        { w2.story with
          currentChapter := some ch2' } } choice).1.story.currentNodeId = nid := by
  obtain ⟨he1, _, he3⟩ := playChapter_entry w chId ch k0 n0 rest hfind hlock hnodes
  have hstep := next_follows_link w2 ch2 node tnode nid hcur hn hnext ht
  have hn' : alookup ch2'.nodes w2.story.currentNodeId = some node := by
    rw [alookup_perm _ _ hperm hnd]
    exact hn
  have ht' : alookup ch2'.nodes nid = some tnode := by
    rw [alookup_perm _ _ hperm hnd]
    exact ht
  have hstep' := next_follows_link
    { w2 with story := { w2.story with currentChapter := some ch2' } }
    ch2' node tnode nid rfl hn' hnext ht'
  have htc : alookup ch2.nodes choice.next = some tnode := by
    rw [hcn]
    exact ht
  have htc' : alookup ch2'.nodes choice.next = some tnode := by
    rw [hcn]
    exact ht'
  have hsel := selectChoice_follows_target w2 ch2 choice tnode hcur htc
  have hsel' := selectChoice_follows_target
    { w2 with story := { w2.story with currentChapter := some ch2' } }
    ch2' choice tnode rfl htc'
  exact ⟨he1, he3, hstep.1, hstep'.1, hsel.1.trans hcn, hsel'.1.trans hcn⟩

/-- C4 counterexample: `playChapter` picks the entry node by key insertion
order (`Object.keys(chapter.nodes)[0]`), so two chapters holding the SAME
node bindings in permuted key order play different first nodes — refuting
the claimed invariance of the played node under reordering the node map's
keys. -/
theorem playChapter_entry_order_dependent :
    cexChapterA.nodes.Perm cexChapterB.nodes ∧
    (StoryManager.playChapter cexWorldA "chX").1.story.currentNodeId = "nA" ∧
    (StoryManager.playChapter cexWorldB "chX").1.story.currentNodeId = "nB" ∧
    ("nA" : String) ≠ "nB" := by
  refine ⟨by decide, by decide, by decide, by decide⟩

/-- C4 witness: the amended theorem instantiated on the two-node fixture —
entry at first key `nA`, link-following from `nA` to `nB`, choice-target
following to `nB`, and the same two steps after permuting the node map. -/
theorem story_traversal_links_and_entry_witness :
    (StoryManager.playChapter cexWorldA "chX").1.story.currentNodeId = "nA" ∧
    (StoryManager.next cexWorldA2).1.story.currentNodeId = "nB" ∧
    (StoryManager.next { cexWorldA2 with story :=
        { cexWorldA2.story with
          currentChapter := some cexChapterB } }).1.story.currentNodeId = "nB" ∧
    (StoryManager.selectChoice cexWorldA2 cexChoice).1.story.currentNodeId
      = "nB" ∧
    (StoryManager.selectChoice { cexWorldA2 with story :=
        { cexWorldA2.story with
          currentChapter := some cexChapterB } }
      cexChoice).1.story.currentNodeId = "nB" := by
  have h := story_traversal_links_and_entry cexWorldA "chX" cexChapterA "nA"
    cexNodeA [("nB", cexNodeB)] (by decide) (by decide) (by decide)
    cexWorldA2 cexChapterA cexChapterB cexNodeA cexNodeB "nB" cexChoice
    (by decide) (by decide) (by decide) (by decide) (by decide) (by decide)
    (by decide)
  exact ⟨h.1, h.2.2.1, h.2.2.2.1, h.2.2.2.2.1, h.2.2.2.2.2⟩

end WechatLove

